import Mathlib

/-!
Shallow embedding of the EPHETZNER backup-then-delete subsystem.

The definitions below translate the Python sources of the repository:
  services/s3.py      (class S3BackupService: create_backup, verify_backup and helpers)
  services/base.py    (dataclasses BackupRequest, BackupResult, ServerInstance)
  commands/delete.py  (the delete command, _select_server, _collect_backup_preferences,
                       _perform_backup)

Modelling conventions:
  - Byte strings are lists of naturals (one per byte).
  - External effects (the paramiko SSH session, SFTP transfer, boto3 upload and
    get_object) are driven by an explicit environment value Env fixing the outcome
    of each call of one workflow run, and by an explicit World state holding the
    remote filesystem and the object store, threaded through the functions.
  - Python exceptions become an Except value with an Err tag named after the
    exception class the source raises.
  - The SHA-256 function itself is kept abstract as a field of Env: the claims are
    about which bytes are hashed and compared, not about the compression function.
-/

/-! ## Python string helpers -/

/-- Models Python str.lstrip with a single-character argument: remove every leading
occurrence of the character. -/
def pyLstrip (c : Char) (s : String) : String :=
  (s.toList.dropWhile (· == c)).asString

/-- Models Python str.rstrip with a single-character argument: remove every trailing
occurrence of the character. -/
def pyRstrip (c : Char) (s : String) : String :=
  ((s.toList.reverse.dropWhile (· == c)).reverse).asString

/-- Models Python s.split(sep, 1) on a single-character separator: the text before the
first occurrence, and, when the separator occurs, the text after it. -/
def splitFirst (c : Char) : List Char → List Char × Option (List Char)
  | [] => ([], none)
  | x :: xs =>
    if x == c then ([], some xs)
    else
      let r := splitFirst c xs
      (x :: r.1, r.2)

/-- Models Python str.startswith. -/
def startswith (s p : String) : Bool :=
  s.toList.take p.toList.length == p.toList

/-- Python truthiness of an optional string: None and the empty string are falsy. -/
def optStrTruthy : Option String → Bool
  | none => false
  | some s => s != ""

/-- Models the Python expression (o or d) for an optional string o: the default is
used when o is None or empty. -/
def pyOrStr (o : Option String) (d : String) : String :=
  match o with
  | some s => if s != "" then s else d
  | none => d

/-! ## urllib.parse.urlparse, restricted to what services/s3.py reads

The model follows CPython urlsplit: an optional scheme (first character
alphabetic, the rest alphanumeric or one of plus, minus, dot, terminated by the
first colon, lowercased), then, when the remainder opens with two slashes, a
network location running up to the first slash, question mark or hash character,
then the fragment after the first hash, then the query after the first question
mark.  The extra parameter split of urlparse (at a semicolon in the last path
segment) is not modelled; every theorem below that depends on a path stays on
strings without semicolons. -/

def schemeChar (c : Char) : Bool :=
  c.isAlphanum || c == '+' || c == '-' || c == '.'

def splitSchemeAux : List Char → List Char → Option (List Char × List Char)
  | _, [] => none
  | acc, x :: xs =>
    if x == ':' then some (acc.reverse, xs)
    else if schemeChar x then splitSchemeAux (x :: acc) xs
    else none

def splitScheme (cs : List Char) : Option (List Char × List Char) :=
  match splitSchemeAux [] cs with
  | some (sch, rest) =>
    match sch with
    | [] => none
    | c :: _ => if c.isAlpha then some (sch.map Char.toLower, rest) else none
  | none => none

/-- A character ending the network-location component. -/
def netlocEnd (c : Char) : Bool :=
  c == '/' || c == '?' || c == '#'

structure UrlParts where
  scheme : String
  netloc : String
  path : String
  query : String
  fragment : String
deriving Repr, DecidableEq

def urlsplitList (cs : List Char) : UrlParts :=
  let sr :=
    match splitScheme cs with
    | some (s, r) => (s, r)
    | none => ([], cs)
  let nr :=
    match sr.2 with
    | '/' :: '/' :: r => (r.takeWhile (fun c => !netlocEnd c), r.dropWhile (fun c => !netlocEnd c))
    | _ => ([], sr.2)
  let fr :=
    match splitFirst '#' nr.2 with
    | (a, some b) => (a, b)
    | (a, none) => (a, [])
  let pq :=
    match splitFirst '?' fr.1 with
    | (a, some b) => (a, b)
    | (a, none) => (a, [])
  { scheme := sr.1.asString, netloc := nr.1.asString,
    path := pq.1.asString, query := pq.2.asString, fragment := fr.2.asString }

def urlsplit (s : String) : UrlParts := urlsplitList s.toList

/-! ## Error model

One constructor per exception class the translated sources raise or catch. -/

inductive Err where
  /-- Python RuntimeError, raised by create_backup for missing credentials, missing
  IPv4 and a failing remote tar command. -/
  | runtimeError (msg : String)
  /-- Python ValueError, raised by the two location parsers. -/
  | valueError (msg : String)
  /-- botocore ClientError carrying the error code of the response. -/
  | clientError (code : String)
  /-- A paramiko transport failure (connect, exec_command, SFTP). -/
  | sshError (msg : String)
  /-- A boto3 upload failure other than ClientError. -/
  | s3Error (msg : String)
  /-- Python NotImplementedError, handled specially by commands/delete.py. -/
  | notImplementedError
  /-- Python UnboundLocalError: a function-local name read before assignment. -/
  | unboundLocalError (msg : String)
  /-- Python TypeError, here from calling a non-callable object. -/
  | typeError (msg : String)
deriving Repr, DecidableEq

/-! ## Data model (services/base.py) -/

/-- ServerInstance from services/base.py.  The created_at timestamp is omitted: the
backup workflow and the deletion decision never read it (it only feeds the age shown
in the Rich summary table). -/
structure ServerInstance where
  identifier : String
  name : String
  server_type : String
  image : String
  ipv4 : Option String
  ipv6 : Option String
  labels : List (String × String)
deriving Repr, DecidableEq

structure BackupRequest where
  server : ServerInstance
  remote_path : String
  archive_name : String
  /-- destination_prefix in the source; renamed to destination_pfx here. -/
  destination_pfx : String
deriving Repr, DecidableEq

structure BackupResult where
  location : String
  checksum : String
  size_bytes : Nat
deriving Repr, DecidableEq

/-! ## State and environment -/

abbrev Bytes := List Nat

/-- The mutable outside state the workflow touches: the remote filesystem reached over
SSH and the S3-compatible object store, both as association lists. -/
structure World where
  remote : List (String × Bytes)
  s3 : List ((String × String) × Bytes)
deriving Repr, DecidableEq

def lookupFS (fs : List (String × Bytes)) (p : String) : Option Bytes :=
  (fs.find? (fun e => e.1 == p)).map (fun e => e.2)

def setFS (fs : List (String × Bytes)) (p : String) (c : Bytes) : List (String × Bytes) :=
  (p, c) :: fs.filter (fun e => !(e.1 == p))

def removeFS (fs : List (String × Bytes)) (p : String) : List (String × Bytes) :=
  fs.filter (fun e => !(e.1 == p))

def lookupS3 (store : List ((String × String) × Bytes)) (b k : String) : Option Bytes :=
  (store.find? (fun e => e.1 == (b, k))).map (fun e => e.2)

def setS3 (store : List ((String × String) × Bytes)) (b k : String) (c : Bytes) :
    List ((String × String) × Bytes) :=
  ((b, k), c) :: store.filter (fun e => !(e.1 == (b, k)))

/-- Fixed outcomes of the external calls of one workflow run.

rmOk models the best-effort remote delete issued by _execute_cleanup: the source
never reads the exit status of that rm command and wraps the call in
suppress(Exception), so rmOk = false covers both a raised transport error and a
failed rm, either of which leaves the remote archive in place. -/
structure Env where
  sha256 : Bytes → String
  connectOk : Bool
  tarExitCode : Nat
  tarStderr : String
  /-- Bytes of the archive the remote tar command writes on exit code zero. -/
  tarOutput : Bytes
  sftpOk : Bool
  uploadOk : Bool
  rmOk : Bool
  closeOk : Bool
  /-- When set, get_object raises ClientError with this error code instead of
  consulting the store (models credential or backend failures). -/
  getObjectErr : Option String

/-- The constructor arguments of S3BackupService that its methods read. -/
structure S3Config where
  endpoint_url : Option String
  access_key : Option String
  secret_key : Option String
deriving Repr, DecidableEq

/-! ## Chunked hashing (hashlib digest updated over 1 MiB reads) -/

/-- Splits a byte string into chunks of n bytes, the way iter(lambda: read(n), b"")
yields successive reads.  The first argument is recursion fuel, instantiated with the
length of the byte string. -/
def readChunksAux (n : Nat) : Nat → Bytes → List Bytes
  | _, [] => []
  | 0, _ :: _ => []
  | fuel + 1, b :: bs => ((b :: bs).take n) :: readChunksAux n fuel ((b :: bs).drop n)

def readChunks (n : Nat) (bs : Bytes) : List Bytes :=
  readChunksAux n bs.length bs

/-- The running hashlib digest state: update appends the chunk to the byte stream the
final hexdigest is computed over. -/
def digestLoop (acc : Bytes) : List Bytes → Bytes
  | [] => acc
  | c :: cs => digestLoop (acc ++ c) cs

/-- S3BackupService._compute_checksum: stream the staged file in 1 MiB chunks into a
sha256 digest and return the hex digest. -/
def compute_checksum (hash : Bytes → String) (content : Bytes) : String :=
  hash (digestLoop [] (readChunks 1048576 content))

/-! ## S3BackupService (services/s3.py) -/

/-- S3BackupService._parse_destination_prefix. -/
def parse_destination_pfx (pfx : String) : Except Err (String × String) :=
  if pfx == "" then
    .error (.valueError "Destination prefix must include the target bucket (e.g. s3://bucket/path)")
  else
    let bk :=
      if startswith pfx "s3://" then
        let parsed := urlsplit pfx
        (parsed.netloc, pyLstrip '/' parsed.path)
      else
        let parts := splitFirst '/' pfx.toList
        (parts.1.asString, (parts.2.getD []).asString)
    if bk.1 == "" then .error (.valueError "S3 bucket name missing in destination prefix")
    else .ok bk

/-- S3BackupService._build_s3_key. -/
def build_s3_key (pfx : String) (archive_name : String) : String :=
  if pfx != "" then pyRstrip '/' pfx ++ "/" ++ archive_name
  else archive_name

/-- S3BackupService._parse_backup_location. -/
def parse_backup_location (location : String) : Except Err (String × String) :=
  let parsed := urlsplit location
  if parsed.scheme != "s3" || parsed.netloc == "" then
    .error (.valueError ("Unsupported backup location: " ++ location))
  else
    let bucket := parsed.netloc
    let key := pyLstrip '/' parsed.path
    if key == "" then
      .error (.valueError ("Missing object key in backup location: " ++ location))
    else .ok (bucket, key)

/-- The command string built by S3BackupService._execute_remote_tar. -/
def remote_tar_command (request : BackupRequest) (remote_archive : String) : String :=
  let source :=
    let r := pyRstrip '/' request.remote_path
    if r != "" then r else "/"
  "sudo tar czf " ++ remote_archive ++ " -C " ++ source ++ " ."

/-- S3BackupService._execute_remote_tar: run the tar command; a non-zero exit status
raises RuntimeError with the decoded stderr text appended to the message; exit status
zero leaves the archive written on the remote filesystem. -/
def execute_remote_tar (env : Env) (w : World) (remote_archive : String) :
    Except Err World :=
  if env.tarExitCode != 0 then
    .error (.runtimeError
      ("Remote archive command failed (" ++ toString env.tarExitCode ++ "): " ++ env.tarStderr))
  else
    .ok { w with remote := setFS w.remote remote_archive env.tarOutput }

/-- S3BackupService._execute_cleanup: issue rm -f for the remote archive over the SSH
session.  The exit status is never inspected; an rmOk of false models a raised
transport error or a failed rm, leaving the file in place. -/
def execute_cleanup (env : Env) (w : World) (remote_archive : String) : Except Err World :=
  if env.rmOk then .ok { w with remote := removeFS w.remote remote_archive }
  else .error (.sshError "exec_command failed")

/-- ssh_client.close(): may raise; it has no effect on the modelled state. -/
def close_session (env : Env) : Except Err Unit :=
  if env.closeOk then .ok () else .error (.sshError "close failed")

/-- The finally block of create_backup: both cleanup steps run under
suppress(Exception), so a failure of either leaves the state of the failing step
unchanged and is discarded. -/
def cleanup_phase (env : Env) (w : World) (remote_archive : String) : World :=
  let w1 :=
    match execute_cleanup env w remote_archive with
    | .ok w2 => w2
    | .error _ => w
  let _closed := close_session env
  w1

/-- The try body of create_backup: remote tar, SFTP transfer to the local staging
file, checksum, upload, size.  The local staging directory is scoped to the body and
not part of World. -/
def create_backup_body (env : Env) (w : World) (bucket key_pfx remote_archive : String)
    (request : BackupRequest) : Except Err BackupResult × World :=
  match execute_remote_tar env w remote_archive with
  | .error e => (.error e, w)
  | .ok w1 =>
    if !env.sftpOk then (.error (.sshError "SFTP transfer failed"), w1)
    else
      match lookupFS w1.remote remote_archive with
      | none => (.error (.sshError "SFTP transfer failed: no such remote file"), w1)
      | some content =>
        let checksum := compute_checksum env.sha256 content
        let key := build_s3_key key_pfx request.archive_name
        if !env.uploadOk then (.error (.s3Error "upload_file failed"), w1)
        else
          let w2 := { w1 with s3 := setS3 w1.s3 bucket key content }
          let size_bytes := content.length
          (.ok { location := "s3://" ++ bucket ++ "/" ++ key,
                 checksum := checksum, size_bytes := size_bytes }, w2)

/-- S3BackupService.create_backup.  The SSH connect sits before the try block, so a
connect failure returns without any cleanup; every later exit path runs the finally
block (cleanup_phase) before the result or error determined by the body is
returned. -/
def create_backup (env : Env) (cfg : S3Config) (w : World) (request : BackupRequest) :
    Except Err BackupResult × World :=
  if !optStrTruthy cfg.access_key || !optStrTruthy cfg.secret_key then
    (.error (.runtimeError "S3 credentials are not configured"), w)
  else if !optStrTruthy request.server.ipv4 then
    (.error (.runtimeError "Server IPv4 address is required for backup"), w)
  else
    match parse_destination_pfx request.destination_pfx with
    | .error e => (.error e, w)
    | .ok bk =>
      let remote_archive := "/tmp/" ++ request.archive_name
      if !env.connectOk then (.error (.sshError "SSH connect failed"), w)
      else
        let pair := create_backup_body env w bk.1 bk.2 remote_archive request
        (pair.1, cleanup_phase env pair.2 remote_archive)

/-- self._client.get_object: a missing object raises ClientError with code NoSuchKey
(the fake S3 client of tests/test_s3_backup.py does the same); an injected backend
failure raises ClientError with the injected code.  On success the reported
ContentLength is the byte length of the stored object. -/
def get_object (env : Env) (w : World) (bucket key : String) : Except Err Bytes :=
  match env.getObjectErr with
  | some code => .error (.clientError code)
  | none =>
    match lookupS3 w.s3 bucket key with
    | none => .error (.clientError "NoSuchKey")
    | some content => .ok content

/-- S3BackupService.verify_backup: parse the location (ValueError propagates), fetch
the object (ClientError with code NoSuchKey or 404 gives false, any other ClientError
propagates), then re-hash the fetched byte stream in 1 MiB chunks and compare the hex
digest with result.checksum and the reported content length with
result.size_bytes. -/
def verify_backup (env : Env) (w : World) (result : BackupResult) : Except Err Bool :=
  match parse_backup_location result.location with
  | .error e => .error e
  | .ok bk =>
    match get_object env w bk.1 bk.2 with
    | .error (.clientError code) =>
      if code == "NoSuchKey" || code == "404" then .ok false
      else .error (.clientError code)
    | .error e => .error e
    | .ok content =>
      let digestHex := compute_checksum env.sha256 content
      let checksum_matches := digestHex == result.checksum
      let size_matches := content.length == result.size_bytes
      .ok (checksum_matches && size_matches)

/-! ## The delete command (commands/delete.py)

delete imports the gettext alias (the module-level translation function, named with
a single underscore) from ephetzner_core.localization.  Inside the function body the
statement unpacking the pair returned by _perform_backup assigns to that
single-underscore name, which under Python scoping makes the name local to the whole
function body.  Every translation call written with that name inside delete therefore
reads the function-local slot: before the unpacking assignment it raises
UnboundLocalError, and after it the slot holds the optional BackupResult, which is
not callable, so a call raises TypeError.  The helper functions _select_server,
_collect_backup_preferences, _build_summary and _perform_backup are separate
functions and still see the module-level alias; their translation calls are modelled
as the identity on the message. -/

/-- The function-local slot the unpacking assignment creates for the underscore name
inside delete: unbound until the assignment runs, afterwards the optional
BackupResult. -/
inductive UnderscoreSlot where
  | unbound
  | assigned (v : Option BackupResult)
deriving Repr, DecidableEq

/-- Evaluating a translation call written with the underscore name inside delete. -/
def call_underscore (slot : UnderscoreSlot) (_msg : String) : Except Err String :=
  match slot with
  | .unbound =>
    .error (.unboundLocalError "local variable referenced before assignment")
  | .assigned _ => .error (.typeError "object is not callable")

/-- BackupOptions from commands/delete.py. -/
structure BackupOptions where
  enabled : Bool
  remote_path : Option String
  destination_pfx : Option String
deriving Repr, DecidableEq

/-- The fields of AppConfig the delete command reads. -/
structure AppConfigM where
  s3_endpoint : Option String
  s3_access_key : Option String
  s3_secret_key : Option String
deriving Repr, DecidableEq

/-- Inputs of one run of the delete command: configuration, CLI options, the answers
the interactive prompts would return (none models a cancelled prompt), the provider
responses, and the environment and world of the backup workflow. -/
structure DeleteEnv where
  benv : Env
  world : World
  config : AppConfigM
  listServersResult : Except Err (List ServerInstance)
  server_id : Option String
  skip_backup : Bool
  /-- Index of the server picked in the interactive list, none when cancelled. -/
  selectAnswer : Option Nat
  confirmAnswer : Option Bool
  backupConfirmAnswer : Option Bool
  remotePathAnswer : Option String
  destAnswer : Option String
  deleteServerResult : Except Err Unit

/-- How a run of the delete command ends: a typer.Exit with a code, an uncaught
exception (the interpreter then exits non-zero), or normal completion. -/
inductive DeleteOutcome where
  | exit (code : Nat)
  | crashed (e : Err)
  | success
deriving Repr, DecidableEq

def select_interactive (denv : DeleteEnv) (servers : List ServerInstance) :
    Except DeleteOutcome ServerInstance :=
  match denv.selectAnswer.bind (fun i => servers.get? i) with
  | some s => .ok s
  | none => .error (.exit 1)

/-- _select_server from commands/delete.py: every failure path (listing raised,
no ephemeral servers, the requested identifier absent, prompt cancelled) raises
typer.Exit(code=1). -/
def select_server (denv : DeleteEnv) : Except DeleteOutcome ServerInstance :=
  match denv.listServersResult with
  | .error _ => .error (.exit 1)
  | .ok servers =>
    if servers.isEmpty then .error (.exit 1)
    else
      match denv.server_id with
      | some sid =>
        if sid != "" then
          match servers.find? (fun s => s.identifier == sid) with
          | some s => .ok s
          | none => .error (.exit 1)
        else select_interactive denv servers
      | none => select_interactive denv servers

/-- _collect_backup_preferences from commands/delete.py. -/
def collect_backup_preferences (denv : DeleteEnv) : BackupOptions :=
  if denv.skip_backup then
    { enabled := false, remote_path := none, destination_pfx := none }
  else if !(optStrTruthy denv.config.s3_access_key && optStrTruthy denv.config.s3_secret_key) then
    { enabled := false, remote_path := none, destination_pfx := none }
  else if denv.backupConfirmAnswer != some true then
    { enabled := false, remote_path := none, destination_pfx := none }
  else
    { enabled := true,
      remote_path := some (pyOrStr denv.remotePathAnswer "/var/backups"),
      destination_pfx := some (pyOrStr denv.destAnswer "") }

/-- _perform_backup from commands/delete.py: build the BackupRequest, run
create_backup then verify_backup; NotImplementedError from either lets the deletion
proceed with (true, none); any other exception and a false verification return
(false, none). -/
def perform_backup (env : Env) (cfg : S3Config) (w : World) (server : ServerInstance)
    (backup : BackupOptions) : (Bool × Option BackupResult) × World :=
  let request : BackupRequest :=
    { server := server,
      remote_path := pyOrStr backup.remote_path "/",
      archive_name := server.name ++ "-backup.tar.gz",
      destination_pfx := pyOrStr backup.destination_pfx "" }
  match create_backup env cfg w request with
  | (.error .notImplementedError, w1) => ((true, none), w1)
  | (.error _, w1) => ((false, none), w1)
  | (.ok result, w1) =>
    match verify_backup env w1 result with
    | .ok true => ((true, some result), w1)
    | .ok false => ((false, none), w1)
    | .error .notImplementedError => ((true, none), w1)
    | .error _ => ((false, none), w1)

/-- build_backup_provider from services/providers.py: always an S3BackupService over
the configured credentials. -/
def build_backup_provider (config : AppConfigM) : S3Config :=
  { endpoint_url := config.s3_endpoint,
    access_key := config.s3_access_key,
    secret_key := config.s3_secret_key }

/-- The part of delete after the summary panel, translated faithfully even though the
panel title above it already raises.  The second component records whether
provider.delete_server was called. -/
def delete_after_summary (denv : DeleteEnv) (server : ServerInstance)
    (backup_opts : BackupOptions) : DeleteOutcome × Bool :=
  if denv.confirmAnswer != some true then
    match call_underscore .unbound "Operation cancelled" with
    | .error e => (.crashed e, false)
    | .ok _ => (.exit 1, false)
  else
    let afterBackup : Except (DeleteOutcome × Bool) UnderscoreSlot :=
      if backup_opts.enabled then
        let cfg := build_backup_provider denv.config
        let r := perform_backup denv.benv cfg denv.world server backup_opts
        let slot := UnderscoreSlot.assigned r.1.2
        if !r.1.1 then
          match call_underscore slot "Backup failed" with
          | .error e => .error (.crashed e, false)
          | .ok _ => .error (.exit 1, false)
        else .ok slot
      else .ok .unbound
    match afterBackup with
    | .error out => out
    | .ok slot =>
      match denv.deleteServerResult with
      | .error .notImplementedError =>
        (match call_underscore slot "Server deletion is not implemented yet." with
         | .error e => (.crashed e, true)
         | .ok _ => (.exit 1, true))
      | .error _ =>
        (match call_underscore slot "Server deletion failed" with
         | .error e => (.crashed e, true)
         | .ok _ => (.exit 1, true))
      | .ok _ =>
        (match call_underscore slot "Server deleted successfully" with
         | .error e => (.crashed e, true)
         | .ok _ => (.success, true))

/-- The delete command: select the server, collect backup preferences, then print the
confirmation panel whose title is the first read of the function-local underscore
name. -/
def delete_command (denv : DeleteEnv) : DeleteOutcome × Bool :=
  match select_server denv with
  | .error out => (out, false)
  | .ok server =>
    let backup_opts := collect_backup_preferences denv
    match call_underscore .unbound "Deletion confirmation" with
    | .error e => (.crashed e, false)
    | .ok _title => delete_after_summary denv server backup_opts


/-! ## Concrete example values

Shared by the closed witness and counterexample theorems below.  The byte string
98 97 99 107 117 112 spells backup. -/

/-- Concrete stand-in for the abstract content hash in closed examples: the letter h
followed by the length.  Only its computability matters to the examples. -/
def cSha : Bytes → String := fun bs => "h" ++ toString bs.length

def cServer : ServerInstance :=
  { identifier := "srv-1", name := "srv-1", server_type := "cx21", image := "ubuntu",
    ipv4 := some "192.0.2.10", ipv6 := none, labels := [("ssh_user", "root")] }

def cRequest : BackupRequest :=
  { server := cServer, remote_path := "/var/data", archive_name := "srv-1-backup.tar.gz",
    destination_pfx := "s3://bucket/backups" }

def cCfg : S3Config :=
  { endpoint_url := none, access_key := some "key", secret_key := some "secret" }

def cWorld : World := { remote := [], s3 := [] }

/-- Environment of a fully successful run. -/
def cEnvGood : Env :=
  { sha256 := cSha, connectOk := true, tarExitCode := 0, tarStderr := "",
    tarOutput := [98, 97, 99, 107, 117, 112], sftpOk := true, uploadOk := true,
    rmOk := true, closeOk := true, getObjectErr := none }

theorem lookupFS_removeFS_self (fs : List (String × Bytes)) (p : String) :
    lookupFS (removeFS fs p) p = none := by
  unfold lookupFS removeFS
  rw [List.find?_eq_none.mpr]
  · rfl
  · intro x hx
    have hkeep := (List.mem_filter.mp hx).2
    simp only [Bool.not_eq_true'] at hkeep
    simp [hkeep]

theorem cleanup_phase_s3 (env : Env) (w : World) (ra : String) :
    (cleanup_phase env w ra).s3 = w.s3 := by
  unfold cleanup_phase execute_cleanup
  by_cases h : env.rmOk <;> simp [h]

theorem cleanup_phase_remote_of_rmOk (env : Env) (w : World) (ra : String)
    (h : env.rmOk = true) : lookupFS (cleanup_phase env w ra).remote ra = none := by
  unfold cleanup_phase execute_cleanup
  simp [h, lookupFS_removeFS_self]

/-- With valid credentials, an IPv4 address, a parsed destination prefix and a
reachable host, create_backup runs the try body and then the finally cleanup. -/
theorem create_backup_reduce (env : Env) (cfg : S3Config) (w : World)
    (request : BackupRequest) (bucket key_pfx : String)
    (hak : optStrTruthy cfg.access_key = true) (hsk : optStrTruthy cfg.secret_key = true)
    (hip : optStrTruthy request.server.ipv4 = true)
    (hparse : parse_destination_pfx request.destination_pfx = .ok (bucket, key_pfx))
    (hconn : env.connectOk = true) :
    create_backup env cfg w request =
      ((create_backup_body env w bucket key_pfx ("/tmp/" ++ request.archive_name) request).1,
        cleanup_phase env
          (create_backup_body env w bucket key_pfx ("/tmp/" ++ request.archive_name) request).2
          ("/tmp/" ++ request.archive_name)) := by
  simp only [create_backup, hak, hsk, hip, hparse, hconn, Bool.not_true, Bool.or_self,
    Bool.false_eq_true, if_false]

/-- Full reduction of a run whose remote tar command exits non-zero. -/
theorem create_backup_tar_fail (env : Env) (cfg : S3Config) (w : World)
    (request : BackupRequest) (bucket key_pfx : String)
    (hak : optStrTruthy cfg.access_key = true) (hsk : optStrTruthy cfg.secret_key = true)
    (hip : optStrTruthy request.server.ipv4 = true)
    (hparse : parse_destination_pfx request.destination_pfx = .ok (bucket, key_pfx))
    (hconn : env.connectOk = true) (htar : env.tarExitCode ≠ 0) :
    create_backup env cfg w request =
      (.error (.runtimeError
          ("Remote archive command failed (" ++ toString env.tarExitCode ++ "): "
            ++ env.tarStderr)),
        cleanup_phase env w ("/tmp/" ++ request.archive_name)) := by
  rw [create_backup_reduce env cfg w request bucket key_pfx hak hsk hip hparse hconn]
  have ht : (env.tarExitCode != 0) = true := by simpa using htar
  simp only [create_backup_body, execute_remote_tar, ht, if_true]

/-- The pair returned by create_backup never depends on the outcomes of the two
suppressed cleanup calls in its first component. -/
theorem create_backup_fst_cleanup_env (env : Env) (b c : Bool) (cfg : S3Config)
    (w : World) (request : BackupRequest) :
    (create_backup { env with rmOk := b, closeOk := c } cfg w request).1 =
      (create_backup env cfg w request).1 := by
  cases env
  unfold create_backup
  repeat' split <;> try rfl

theorem select_server_error (denv : DeleteEnv) (out : DeleteOutcome)
    (h : select_server denv = .error out) : out = .exit 1 := by
  unfold select_server select_interactive at h
  repeat' split at h
  all_goals simp_all

/-- Claim C4: destination-prefix parsing maps the URI form s3://bucket/path to the
pair bucket and path, the bare form bucket/path to the same, the lone bucket to the
pair bucket and empty key prefix, and rejects an empty prefix with the
ConfigurationError-class failure (a ValueError in the source). -/
theorem parse_destination_pfx_spec_vectors :
    parse_destination_pfx "s3://bucket/path" = .ok ("bucket", "path") ∧
      parse_destination_pfx "bucket/path" = .ok ("bucket", "path") ∧
      parse_destination_pfx "bucket" = .ok ("bucket", "") ∧
      parse_destination_pfx "" =
        .error (.valueError
          "Destination prefix must include the target bucket (e.g. s3://bucket/path)") :=
  ⟨rfl, rfl, rfl, rfl⟩

/-- Claim C6: when the remote tar command exits non-zero, create_backup fails with
the ArchiveError-class RuntimeError whose message ends with the captured stderr
text, and the object store is left exactly as it was: nothing is uploaded. -/
theorem tar_failure_archive_error (env : Env) (cfg : S3Config) (w : World)
    (request : BackupRequest) (bucket key_pfx : String)
    (hak : optStrTruthy cfg.access_key = true) (hsk : optStrTruthy cfg.secret_key = true)
    (hip : optStrTruthy request.server.ipv4 = true)
    (hparse : parse_destination_pfx request.destination_pfx = .ok (bucket, key_pfx))
    (hconn : env.connectOk = true) (htar : env.tarExitCode ≠ 0) :
    (∃ m, (create_backup env cfg w request).1 =
        .error (.runtimeError (m ++ env.tarStderr))) ∧
      ((create_backup env cfg w request).2).s3 = w.s3 := by
  rw [create_backup_tar_fail env cfg w request bucket key_pfx hak hsk hip hparse hconn
    htar]
  exact ⟨⟨"Remote archive command failed (" ++ toString env.tarExitCode ++ "): ", rfl⟩,
    cleanup_phase_s3 env w _⟩

/-- Witness for C6 at the spec scenario: exit status one with stderr text
tar: permission denied. -/
theorem tar_failure_archive_error_witness :
    (∃ m, (create_backup
          { cEnvGood with tarExitCode := 1, tarStderr := "tar: permission denied" }
          cCfg cWorld cRequest).1 =
        .error (.runtimeError (m ++ "tar: permission denied"))) ∧
      ((create_backup
          { cEnvGood with tarExitCode := 1, tarStderr := "tar: permission denied" }
          cCfg cWorld cRequest).2).s3 = cWorld.s3 :=
  tar_failure_archive_error
    { cEnvGood with tarExitCode := 1, tarStderr := "tar: permission denied" }
    cCfg cWorld cRequest "bucket" "backups" rfl rfl rfl rfl rfl (by decide)

/-- Claim C3 counterexample: when the best-effort remote delete fails (its exception
is suppressed and its exit status is never read), create_backup still returns its
successful result while the remote temporary archive file persists after the call,
so the unconditional archive-gone conjunct of the claim is false. -/
theorem cleanup_failure_leaves_archive :
    (create_backup { cEnvGood with rmOk := false } cCfg cWorld cRequest).1 =
        .ok { location := "s3://bucket/backups/srv-1-backup.tar.gz",
              checksum := cSha [98, 97, 99, 107, 117, 112], size_bytes := 6 } ∧
      lookupFS ((create_backup { cEnvGood with rmOk := false } cCfg cWorld
            cRequest).2).remote "/tmp/srv-1-backup.tar.gz" =
        some [98, 97, 99, 107, 117, 112] :=
  ⟨rfl, rfl⟩

/-- Claim C3 (amended): once the session is established, the two suppressed cleanup
calls never change the result or error already determined by the body, and whenever
the best-effort remote delete succeeds the remote temporary archive is absent after
create_backup returns, on success and failure exits alike. -/
theorem cleanup_isolated_and_removes_archive (env : Env) (cfg : S3Config) (w : World)
    (request : BackupRequest) (bucket key_pfx : String)
    (hak : optStrTruthy cfg.access_key = true) (hsk : optStrTruthy cfg.secret_key = true)
    (hip : optStrTruthy request.server.ipv4 = true)
    (hparse : parse_destination_pfx request.destination_pfx = .ok (bucket, key_pfx))
    (hconn : env.connectOk = true) :
    (∀ b c, (create_backup { env with rmOk := b, closeOk := c } cfg w request).1 =
        (create_backup env cfg w request).1) ∧
      (env.rmOk = true →
        lookupFS ((create_backup env cfg w request).2).remote
          ("/tmp/" ++ request.archive_name) = none) := by
  refine ⟨fun b c => create_backup_fst_cleanup_env env b c cfg w request, fun hrm => ?_⟩
  rw [create_backup_reduce env cfg w request bucket key_pfx hak hsk hip hparse hconn]
  exact cleanup_phase_remote_of_rmOk env _ _ hrm

/-- Witness for the amended C3 at concrete inputs. -/
theorem cleanup_isolated_and_removes_archive_witness :
    ((create_backup { cEnvGood with rmOk := false, closeOk := false } cCfg cWorld
          cRequest).1 =
        (create_backup cEnvGood cCfg cWorld cRequest).1) ∧
      lookupFS ((create_backup cEnvGood cCfg cWorld cRequest).2).remote
        "/tmp/srv-1-backup.tar.gz" = none := by
  have h := cleanup_isolated_and_removes_archive cEnvGood cCfg cWorld cRequest "bucket"
    "backups" rfl rfl rfl rfl rfl
  exact ⟨h.1 false false, h.2 rfl⟩

/-- Claim C1 (the code diverges from the claimed flow): on every run the delete
command never calls provider.delete_server and never finishes successfully.  Either
server selection already exits with code one, or the unpacking assignment that reads
_perform_backup's pair has made the translation alias function-local, so the first
translation call inside delete (the confirmation panel title) raises
UnboundLocalError before any confirmation, backup or deletion work, ending the
process non-zero. -/
theorem delete_never_deletes (denv : DeleteEnv) :
    (delete_command denv).2 = false ∧
      ((delete_command denv).1 = .exit 1 ∨
        (delete_command denv).1 =
          .crashed (.unboundLocalError "local variable referenced before assignment")) := by
  unfold delete_command
  cases h : select_server denv with
  | error out => simp [select_server_error denv out h]
  | ok server => simp [call_underscore]
